import Mathlib

/-!
Verification of the Schema-Adaptive Batch Replay Engine
(`streaming_simulator.py`) against its natural-language specification.

The Python source is shallowly embedded: pure helpers become Lean
functions over `String` / `List`, the retry and polling loops become
explicit fuel-indexed recursions that record an observable trace
(attempt counts, sleep durations, diagnostic saves), and network
responses are quantified over as explicit inputs.
-/

namespace StreamingSim

/-! ## Python string primitives

Models of the CPython builtins used by the source file.  These are
modelled from the Python language reference, since the source calls
them directly: `str.strip` (Unicode whitespace), `str.lower` (ASCII
case folding suffices for the header families concerned),
`float(str)` and `int(str)` parsing (underscore digit separators
included; binary64 rounding of parsed values is kept exact as `Rat`,
which only matters for the never-exercised frequency-ceiling
comparison). -/

/-- Characters for which Python's `str.isspace` (hence `str.strip`)
is true.  Note U+FEFF (the byte-order mark) is NOT whitespace. -/
def pyIsSpace (c : Char) : Bool :=
  let n := c.toNat
  n = 32 || (9 ≤ n && n ≤ 13) || (28 ≤ n && n ≤ 31) ||
  n = 0x85 || n = 0xa0 || n = 0x1680 || (0x2000 ≤ n && n ≤ 0x200a) ||
  n = 0x2028 || n = 0x2029 || n = 0x202f || n = 0x205f || n = 0x3000

/-- Python `str.strip()`: remove leading and trailing whitespace. -/
def pyStrip (s : String) : String :=
  String.mk (((s.toList.dropWhile pyIsSpace).reverse.dropWhile pyIsSpace).reverse)

/-- Python `str.lower()` (ASCII case folding, which covers every
header family and magic substring the source compares). -/
def strLower (s : String) : String :=
  String.mk (s.toList.map Char.toLower)

/-- Python `str.startswith(pre)`. -/
def strStartsWith (s pre : String) : Bool :=
  pre.toList.isPrefixOf s.toList

/-- Python slicing `s[n:]`. -/
def strDrop (s : String) (n : Nat) : String :=
  String.mk (s.toList.drop n)

/-- Left-to-right, non-overlapping replacement of a non-empty pattern.
The fuel starts at the list length and bounds the recursion (each step
consumes at least one character). -/
def replaceFuel (pat rep : List Char) : Nat → List Char → List Char
  | 0, l => l
  | _ + 1, [] => []
  | fuel + 1, c :: rest =>
    if pat.isPrefixOf (c :: rest) then
      rep ++ replaceFuel pat rep fuel (rest.drop (pat.length - 1))
    else c :: replaceFuel pat rep fuel rest

/-- Python `s.replace(pat, rep)`: replace every non-overlapping
occurrence, scanning left to right.  (The empty-pattern case is never
exercised by the source, whose patterns are `'f_'` and `'freq_'`.) -/
def strReplace (s pat rep : String) : String :=
  if pat.toList.isEmpty then s
  else String.mk (replaceFuel pat.toList rep.toList s.toList.length s.toList)

/-- Consume a run of decimal digits (with Python's single-underscore
separators between digits), accumulating the value and digit count.
Returns `(value, digitCount, rest)`. -/
def chompDigits : Nat → Nat → List Char → Nat × Nat × List Char
  | acc, cnt, '_' :: c :: rest =>
    if c.isDigit then chompDigits (acc * 10 + (c.toNat - 48)) (cnt + 1) rest
    else (acc, cnt, '_' :: c :: rest)
  | acc, cnt, c :: rest =>
    if c.isDigit then chompDigits (acc * 10 + (c.toNat - 48)) (cnt + 1) rest
    else (acc, cnt, c :: rest)
  | acc, cnt, [] => (acc, cnt, [])

/-- A Python `digitpart`: at least one digit, with optional single
underscores between digits.  Fails if the input does not begin with a
digit. -/
def takeDigitPart (cs : List Char) : Option (Nat × Nat × List Char) :=
  match cs with
  | c :: rest => if c.isDigit then some (chompDigits (c.toNat - 48) 1 rest) else none
  | [] => none

/-- Strip one optional leading sign, returning (isNegative, rest). -/
def pySign : List Char → Bool × List Char
  | '-' :: rest => (true, rest)
  | '+' :: rest => (false, rest)
  | cs => (false, cs)

/-- A Python float value: a finite rational, a signed infinity, or NaN. -/
inductive PyF where
  | num (q : ℚ)
  | inf (neg : Bool)
  | nan
deriving DecidableEq

/-- Mantissa of a Python float literal: `digitpart [. [digitpart]]`
or `. digitpart`.  Returns `(combinedDigits, fracDigitCount, rest)`. -/
def pyFloatMantissa (cs : List Char) : Option (Nat × Nat × List Char) :=
  match takeDigitPart cs with
  | some (ip, _, rest) =>
    match rest with
    | '.' :: r2 =>
      match takeDigitPart r2 with
      | some (fp, fc, r3) => some (ip * 10 ^ fc + fp, fc, r3)
      | none => some (ip, 0, r2)
    | _ => some (ip, 0, rest)
  | none =>
    match cs with
    | '.' :: r2 => takeDigitPart r2
    | _ => none

/-- Optional exponent part of a Python float literal; the whole input
must be consumed.  Returns the exponent on success. -/
def pyFloatExponent (cs : List Char) : Option ℤ :=
  match cs with
  | [] => some 0
  | c :: rest =>
    if c = 'e' || c = 'E' then
      let (eneg, rest') :=
        match rest with
        | s :: r2 => if s = '+' then (false, r2) else if s = '-' then (true, r2) else (false, rest)
        | [] => (false, rest)
      match takeDigitPart rest' with
      | some (ev, _, []) => some (if eneg then -(ev : ℤ) else (ev : ℤ))
      | _ => none
    else none

/-- Python `float(s)`: strip whitespace, optional sign, then either
`inf`/`infinity`/`nan` (case-insensitive) or a decimal literal with
optional exponent.  `none` models a raised `ValueError`. -/
def pyFloatVal (s : String) : Option PyF :=
  let cs := (pyStrip s).toList
  let (neg, cs) := pySign cs
  let ls := cs.map Char.toLower
  if ls = "inf".toList || ls = "infinity".toList then some (.inf neg)
  else if ls = "nan".toList then some .nan
  else
    match pyFloatMantissa cs with
    | none => none
    | some (m, fracDigits, rest) =>
      match pyFloatExponent rest with
      | none => none
      | some e =>
        some (.num ((if neg then -(m : ℚ) else (m : ℚ)) * 10 ^ (e - (fracDigits : ℤ))))

/-- Whether `float(s)` succeeds (does not raise `ValueError`). -/
def pyFloatParses (s : String) : Bool := (pyFloatVal s).isSome

/-- IEEE-style `≤` used by Python's float comparison (exact on the
rational values; binary64 rounding abstracted away). -/
def pyFloatLe : PyF → PyF → Bool
  | .nan, _ => false
  | _, .nan => false
  | .inf true, _ => true
  | .inf false, .inf false => true
  | .inf false, _ => false
  | .num _, .inf false => true
  | .num _, .inf true => false
  | .num a, .num b => decide (a ≤ b)

/-- Python `int(s)`: strip whitespace, optional sign, then a base-10
`digitpart` consuming the whole input.  `none` models `ValueError`. -/
def pyInt (s : String) : Option ℤ :=
  let cs := (pyStrip s).toList
  let (neg, cs) := pySign cs
  match takeDigitPart cs with
  | some (v, _, []) => some (if neg then -(v : ℤ) else (v : ℤ))
  | _ => none

/-- Python `needle in hay` on strings: substring containment. -/
def strContains (hay needle : String) : Bool :=
  hay.toList.tails.any (fun t => needle.toList.isPrefixOf t)

/-- Python dict insertion (`d[k] = v`): overwrite in place if the key
exists, else append, preserving insertion order. -/
def dictInsert (d : List (String × String)) (k v : String) : List (String × String) :=
  if d.any (fun kv => kv.1 = k) then d.map (fun kv => if kv.1 = k then (k, v) else kv)
  else d ++ [(k, v)]

/-- Python `d.get(k, default)`. -/
def dictGet (d : List (String × String)) (k : String) (default : String) : String :=
  match d.find? (fun kv => kv.1 = k) with
  | some kv => kv.2
  | none => default

/-- Python truthiness of an optional int (`None` and `0` are falsy). -/
def intOptTruthy : Option ℤ → Bool
  | none => false
  | some v => v != 0

/-- Python `x or fallback` for an optional int (falls back on `None`
and on the falsy value `0`). -/
def pyOrInt (v : Option ℤ) (fallback : ℤ) : ℤ :=
  match v with
  | some x => if x = 0 then fallback else x
  | none => fallback

/-! ## `StreamingSimulator.normalize_headers` -/

/-- One header's normalization, as the source performs it: `strip()`
first, then remove a single leading BOM; the dataset-family branches
all append the same cleaned header. -/
def normalize_headers (headers : List String) (dataset_family : String) : List String :=
  headers.map (fun header =>
    let clean_header := pyStrip header
    let clean_header :=
      if strStartsWith clean_header "\uFEFF" then strDrop clean_header 1 else clean_header
    if dataset_family = "store_d" then clean_header
    else if dataset_family = "generic" then clean_header
    else clean_header)

/-- The common per-header transformation: whitespace stripped, then a
single leading byte-order mark removed. -/
def pyRemoveBOM (s : String) : String :=
  if strStartsWith s "\uFEFF" then strDrop s 1 else s

/-! ## `StreamingSimulator.extract_feature_columns` -/

/-- The feature-column predicate used when collecting candidates:
lower-cased then stripped name starts with `f_` or `freq_`. -/
def isFeatureHeader (header : String) : Bool :=
  let header_lower := pyStrip (strLower header)
  strStartsWith header_lower "f_" || strStartsWith header_lower "freq_"

/-- `extract_feature_columns`, with the simulator's two optional
ceiling fields (`feature_max_freq`, `feature_max_index`) as explicit
arguments.  The source builds `filtered_cols` by appending in a for
loop, which is a filter preserving order.  Note the ceiling branches
test `h.lower()` WITHOUT stripping, and compare the value obtained by
`str.replace`, which deletes every occurrence of the prefix. -/
def extract_feature_columns (feature_max_freq : Option PyF) (feature_max_index : Option ℤ)
    (headers : List String) : List String :=
  let feature_cols := headers.filter isFeatureHeader
  match feature_max_freq with
  | some maxfreq =>
    feature_cols.filter (fun h =>
      let hl := strLower h
      if strStartsWith hl "freq_" then
        match pyFloatVal (strReplace hl "freq_" "") with
        | some val => pyFloatLe val maxfreq
        | none => true
      else true)
  | none =>
    match feature_max_index with
    | some maxidx =>
      feature_cols.filter (fun h =>
        let hl := strLower h
        if strStartsWith hl "f_" then
          match pyInt (strReplace hl "f_" "") with
          | some idx => decide (idx ≤ maxidx)
          | none => true
        else true)
    | none => feature_cols

/-! ## `StreamingSimulator.validate_vector_length` -/

/-- The feature-key predicate of `validate_vector_length`:
`key.lower().strip()` starts with `f_` or `freq_`. -/
def isFeatureKey (key : String) : Bool :=
  let key_lower := pyStrip (strLower key)
  strStartsWith key_lower "f_" || strStartsWith key_lower "freq_"

/-- The `for key, value in data_row.items()` loop of
`validate_vector_length`, threading the count of successfully parsed
feature values (`feature_values` is only measured by its length).
An unparsable feature value returns `false` immediately, modelling
the caught `ValueError`/`TypeError` followed by `return False`. -/
def validateLoop (expected_length : Nat) : List (String × String) → Nat → Bool
  | [], count => count == expected_length
  | (key, value) :: rest, count =>
    if isFeatureKey key then
      if pyFloatParses value then validateLoop expected_length rest (count + 1)
      else false
    else validateLoop expected_length rest count

/-- `validate_vector_length(data_row, expected_length)`.  A row is an
association list in Python dict insertion order; the function is
total (never raises). -/
def validate_vector_length (data_row : List (String × String)) (expected_length : Nat) : Bool :=
  validateLoop expected_length data_row 0

/-! ## Batching loop of `StreamingSimulator.simulate_streaming` -/

/-- Python `range(start, stop, step)` for a positive step. -/
def pyRange (start stop step : Nat) : List Nat :=
  if _h : start < stop ∧ 0 < step then start :: pyRange (start + step) stop step else []
termination_by stop - start
decreasing_by omega

/-- The batch slices produced by
`for i in range(0, len(monitor_data), batch_size): batch = monitor_data[i:i + batch_size]`;
Python's slice `l[i:i+B]` is `take B (drop i l)`. -/
def streamBatches {α : Type} (monitor_data : List α) (batch_size : Nat) : List (List α) :=
  (pyRange 0 monitor_data.length batch_size).map
    (fun i => (monitor_data.drop i).take batch_size)

/-! ## `StreamingSimulator.load_monitor_data`

The CSV reading itself is external I/O; its outcome is the field-name
list and the raw rows (each an association list keyed by the original
headers, in file order), which are the model's inputs.  The dataset
family computed by `detect_dataset_family` is passed in opaquely: it
only feeds `normalize_headers`, which ignores it (see the C4
theorems), so the regex-based classifier does not affect any claim. -/

/-- One loaded row: the normalized cells plus the zero-based source
index (stored by the source under the `'_row_index'` key of the same
dict; kept as a separate field here because cell values are strings). -/
structure LoadedRow where
  cells : List (String × String)
  row_index : Nat
deriving DecidableEq

/-- Result of a successful load. -/
structure LoadResult where
  original_headers : List String
  normalized_headers : List String
  orig_to_norm : List (String × String)
  feature_columns : List String
  rows : List LoadedRow
deriving DecidableEq

/-- `{orig: norm for orig, norm in zip(original_headers, normalized_headers)}`. -/
def buildOrigToNorm (origs norms : List String) : List (String × String) :=
  (origs.zip norms).foldl (fun d p => dictInsert d p.1 p.2) []

/-- The inner loop building `normalized_row`:
`for orig_header in original_headers: normalized_row[orig_to_norm[orig_header]] = row.get(orig_header, '')`.
(The mapping lookup cannot miss by construction; a default of `''` stands
in for the impossible `KeyError`.) -/
def buildNormalizedRow (original_headers : List String) (orig_to_norm : List (String × String))
    (row : List (String × String)) : List (String × String) :=
  original_headers.foldl
    (fun nr orig => dictInsert nr (dictGet orig_to_norm orig "") (dictGet row orig "")) []

/-- The row loop of `load_monitor_data`: builds each normalized row,
validates the raw row for `row_idx < 3`, and records the source index. -/
def loadRows (original_headers : List String) (orig_to_norm : List (String × String))
    (expected : Nat) : List (Nat × List (String × String)) → Except String (List LoadedRow)
  | [] => .ok []
  | (row_idx, row) :: rest =>
    if row_idx < 3 && !validate_vector_length row expected then
      .error ("Vector length validation failed at row " ++ toString (row_idx + 1))
    else
      match loadRows original_headers orig_to_norm expected rest with
      | .ok tail => .ok (⟨buildNormalizedRow original_headers orig_to_norm row, row_idx⟩ :: tail)
      | .error e => .error e

/-- `load_monitor_data`, over the parsed CSV content.  `.error`
models the raised `ValueError`s; note there is no code path that
inspects `normalized_headers` for duplicates. -/
def load_monitor_data (dataset_family : String) (fieldnames : List String)
    (csv_rows : List (List (String × String))) : Except String LoadResult :=
  if fieldnames.isEmpty then .error "CSV file has no headers"
  else
    let original_headers := fieldnames
    let normalized_headers := normalize_headers original_headers dataset_family
    let orig_to_norm := buildOrigToNorm original_headers normalized_headers
    let feature_columns := extract_feature_columns none none original_headers
    let expected_vector_length := feature_columns.length
    match loadRows original_headers orig_to_norm expected_vector_length csv_rows.enum with
    | .ok rows =>
      .ok ⟨original_headers, normalized_headers, orig_to_norm, feature_columns, rows⟩
    | .error e => .error e

/-! ## Batch re-serialization in `simulate_streaming`

The per-batch CSV writing loop (lines 441–467 of the source).  The
only floating-point step, `"%g" % float(val)`, is abstracted as an
arbitrary function `fmtG : String → String` applied to the raw cell
string whenever `float(val)` succeeds; everything else (which cells
are re-formatted, zero-substituted, or passed through raw) is
translated exactly. -/

/-- `source_key` resolution, identical in the feature and metadata
branches:
`orig_to_norm[col] if (include_metadata and orig_to_norm and col in orig_to_norm) else col`. -/
def batchSourceKey (include_metadata : Bool) (orig_to_norm : Option (List (String × String)))
    (col : String) : String :=
  let mapTruthy :=
    match orig_to_norm with
    | some d => !d.isEmpty
    | none => false
  if include_metadata && mapTruthy && (orig_to_norm.getD []).any (fun kv => kv.1 = col) then
    dictGet (orig_to_norm.getD []) col ""
  else col

/-- One output cell of a batch row. -/
def batchCell (fmtG : String → String) (include_metadata : Bool)
    (orig_to_norm : Option (List (String × String))) (row : List (String × String))
    (col : String) : String :=
  let source_key := batchSourceKey include_metadata orig_to_norm col
  let val := dictGet row source_key ""
  if strStartsWith (strLower col) "f_" || strStartsWith (strLower col) "freq_" then
    if pyFloatParses val then fmtG val else "0"
  else val

/-- One written batch row: `row_data` restricted by `DictWriter` to
the field names, in field-name order. -/
def writeBatchRow (fmtG : String → String) (include_metadata : Bool)
    (orig_to_norm : Option (List (String × String))) (fieldnames : List String)
    (row : List (String × String)) : List (String × String) :=
  fieldnames.map (fun col => (col, batchCell fmtG include_metadata orig_to_norm row col))

/-! ## `StreamingSimulator._send_monitor_batch` (transmission loop)

The loop is modelled over an explicit sequence of per-attempt
outcomes: either the request raises (network error / body decode
failure) or a response with a status and body text arrives.  The
observable trace records attempts made, backoff sleeps performed (in
seconds: the source sleeps `1.0 * attempt`), diagnostic-file saves
(`shutil.copy2` to `debug_failed_batch_{baseline_id}.csv`), and the
final outcome. -/

/-- Outcome of one HTTP POST attempt. -/
inductive HttpAttempt where
  | netErr
  | resp (status : Nat) (body : String)
deriving DecidableEq

/-- Terminal result of the transmission loop. -/
inductive SendOutcome where
  | ok
  | raised
  | fellThrough
deriving DecidableEq

/-- Observable trace of the transmission loop. -/
structure SendTrace where
  attempts : Nat
  sleeps : List Nat
  debugSaves : Nat
  outcome : SendOutcome
deriving DecidableEq

/-- The fixed diagnostic path for a failed batch. -/
def debugFailedBatchPath (baseline_id : ℤ) : String :=
  "debug_failed_batch_" ++ toString baseline_id ++ ".csv"

/-- One `while attempt <= request_retries` loop of
`_send_monitor_batch`, as a fuel-indexed recursion (`sendFrom`
supplies fuel `retries + 1 - attempt0`, which never runs out before
the loop condition fails).  `responses k` is the outcome of the k-th
attempt (1-based).  Control flow per iteration, from the source:
a 2xx returns; otherwise the `if/elif` chain reaches its
`continue` only for a 5xx whose body contains neither magic
substring, and only while `attempt <= retries`; every other non-2xx
saves the diagnostic file and raises — a raise that the enclosing
`except` catches and, while `attempt <= retries`, turns into another
backoff-and-retry. -/
def sendFuel (retries : Nat) (responses : Nat → HttpAttempt) : Nat → Nat → SendTrace
  | 0, _ => ⟨0, [], 0, .fellThrough⟩
  | fuel + 1, attempt0 =>
    if attempt0 ≤ retries then
      let attempt := attempt0 + 1
      let cont : Bool → SendTrace := fun saved =>
        let t := sendFuel retries responses fuel attempt
        ⟨t.attempts + 1, attempt :: t.sleeps, t.debugSaves + (if saved then 1 else 0), t.outcome⟩
      match responses attempt with
      | .netErr =>
        if attempt ≤ retries then cont false else ⟨1, [], 0, .raised⟩
      | .resp status body =>
        if status = 200 || status = 201 then ⟨1, [], 0, .ok⟩
        else
          let lowBody := strLower body
          let transientRetry : Bool :=
            if strContains lowBody "baseline matrix empty" then false
            else if strContains lowBody "dimension mismatch" then false
            else if status = 400 then false
            else if 500 ≤ status then attempt ≤ retries
            else false
          if transientRetry then cont false
          else if attempt ≤ retries then cont true
          else ⟨1, [], 1, .raised⟩
    else ⟨0, [], 0, .fellThrough⟩

/-- The transmission loop entered at `attempt = attempt0` (the source
starts at 0). -/
def sendFrom (retries : Nat) (responses : Nat → HttpAttempt) (attempt0 : Nat) : SendTrace :=
  sendFuel retries responses (retries + 1 - attempt0) attempt0

/-! ## `StreamingSimulator._poll_for_processing_completion` -/

/-- The decoded `data` object of a poll response; `none` stands for a
missing/falsy `data` field.  A missing coordinate array behaves like
an empty one (both are falsy with length 0). -/
structure PollData where
  dinsight_x : List ℤ
  dinsight_y : List ℤ
  dinsight_id : Option ℤ
deriving DecidableEq

/-- Outcome of one poll attempt: the request/JSON decode raises, or a
response arrives. -/
inductive PollAttempt where
  | err
  | resp (status : Nat) (data : Option PollData)
deriving DecidableEq

/-- Observable trace of the polling loop: attempts made, 2-second
sleeps performed, and `some id` on success / `none` for the
`TimeoutError` raised after the loop. -/
structure PollTrace where
  attempts : Nat
  sleeps : Nat
  result : Option ℤ
deriving DecidableEq

/-- The `while attempt < max_attempts` loop, structural on the number
of remaining attempts.  Per iteration: any raise inside the `try` is
swallowed; a 200 response whose `data` is truthy with both coordinate
arrays non-empty returns `data.get('dinsight_id') or upload_id`;
otherwise the attempt counter advances and the loop sleeps 2 seconds
(also after the final attempt, before raising `TimeoutError`). -/
def pollLoop (upload_id : ℤ) (responses : Nat → PollAttempt) : Nat → Nat → PollTrace
  | 0, _ => ⟨0, 0, none⟩
  | remaining + 1, attempt =>
    let cont : PollTrace :=
      let t := pollLoop upload_id responses remaining (attempt + 1)
      ⟨t.attempts + 1, t.sleeps + 1, t.result⟩
    match responses (attempt + 1) with
    | .err => cont
    | .resp status data =>
      if status = 200 then
        match data with
        | some d =>
          if d.dinsight_x ≠ [] ∧ d.dinsight_y ≠ [] then
            ⟨1, 0, some (pyOrInt d.dinsight_id upload_id)⟩
          else cont
        | none => cont
      else cont

/-- `_poll_for_processing_completion(upload_id, max_attempts)`;
`responses k` is the outcome of the k-th attempt (1-based). -/
def poll_for_processing_completion (upload_id : ℤ) (responses : Nat → PollAttempt)
    (max_attempts : Nat) : PollTrace :=
  pollLoop upload_id responses max_attempts 0

/-! ## `StreamingSimulator.get_streaming_status` -/

/-- JSON values appearing in the status dictionary. -/
inductive JVal where
  | s (v : String)
  | n (v : ℤ)
  | q (v : ℚ)
  | b (v : Bool)
deriving DecidableEq

/-- The session fields read by `get_streaming_status`. -/
structure SessionState where
  baseline_id : Option ℤ
  monitor_len : Nat
  is_streaming : Bool
  baseline_count : Option Nat
  latest_glow_count : ℤ

/-- Outcome of the `GET /monitor/{id}/coordinates` call. -/
inductive CoordResp where
  | err
  | resp (status : Nat) (dinsight_x : List ℤ)

/-- `get_streaming_status`: the returned dictionary paired with
whether the backend was contacted.  `if not self.baseline_id` is
Python truthiness on the optional int. -/
def get_streaming_status (st : SessionState) (backend : CoordResp) :
    List (String × JVal) × Bool :=
  if !intOptTruthy st.baseline_id then ([("status", .s "not_started")], false)
  else
    let current_points : Nat :=
      match backend with
      | .err => 0
      | .resp status dinsight_x => if status = 200 then dinsight_x.length else 0
    ([("status", .s (if st.is_streaming then "streaming" else "completed")),
      ("baseline_id", .n (st.baseline_id.getD 0)),
      ("total_points", .n st.monitor_len),
      ("streamed_points", .n current_points),
      ("progress_percentage",
        .q (if st.monitor_len ≠ 0 then ((current_points : ℚ) / st.monitor_len) * 100 else 0)),
      ("baseline_points", .n (match st.baseline_count with | some c => (c : ℤ) | none => 0)),
      ("latest_glow_count", .n st.latest_glow_count),
      ("is_streaming", .b st.is_streaming)], true)

/-! ## Claim-level definitions

Formalisations of the spec claims' own wording (to be compared with
the source-derived definitions above), plus vocabulary used to state
the claims. -/

/-- Spec claim C4, as worded: each normalized name is the original
with a single leading byte-order marker removed if present, and (then)
surrounding whitespace removed. -/
def claimNormalizeHeader (header : String) : String :=
  pyStrip (pyRemoveBOM header)

/-- Spec claim C8, as worded, for an active max-index ceiling `c`:
keep exactly the feature columns that (a) start with `f_` and have an
integer suffix ≤ `c`, (b) start with `f_` with an unparsable suffix,
or (c) start with `freq_`. -/
def claimExtractMaxIndex (c : ℤ) (headers : List String) : List String :=
  (headers.filter isFeatureHeader).filter (fun h =>
    let hl := strLower h
    if strStartsWith hl "f_" then
      match pyInt (strDrop hl 2) with
      | some idx => decide (idx ≤ c)
      | none => true
    else strStartsWith hl "freq_")

/-- The keep-predicate the source actually applies under a max-index
ceiling: for a (lower-cased, untrimmed) `f_`-prefixed name, compare
the integer obtained by deleting every occurrence of `f_`, keeping
unparsable ones; every other selected column passes through. -/
def maxIndexKeep (c : ℤ) (h : String) : Bool :=
  let hl := strLower h
  if strStartsWith hl "f_" then
    match pyInt (strReplace hl "f_" "") with
    | some idx => decide (idx ≤ c)
    | none => true
  else true

/-- The contiguous slice of a list covering indices `[a, b)`. -/
def listSlice {α : Type} (a b : Nat) (l : List α) : List α :=
  (l.drop a).take (b - a)

/-- The poller's per-attempt success condition, at the claim's level:
a 200 response whose data object is present with both coordinate
arrays non-empty. -/
def pollHit : PollAttempt → Option PollData
  | .resp status (some d) =>
    if status = 200 ∧ d.dinsight_x ≠ [] ∧ d.dinsight_y ≠ [] then some d else none
  | _ => none

/-! ## Theorems for the claims -/

/-- C1: the claim says a 4xx response terminates `_send_monitor_batch`
after a single attempt with no backoff sleep.  The code disagrees:
the terminal `raise` after the diagnostic save is caught by the
enclosing `except Exception` clause, which sleeps and retries while
the budget lasts.  With the default retry budget 2 and HTTP 400 on
every attempt, the loop makes 3 attempts, sleeps 1s and then 2s, and
saves the diagnostic file three times before the raise finally
propagates — contradicting both the claim and the code's own comment
that retries are a "light retry on transient 5xx". -/
theorem c1_fourxx_is_retried :
    sendFrom 2 (fun _ => .resp 400 "bad request") 0
      = ⟨3, [1, 2], 3, .raised⟩
    ∧ ¬((sendFrom 2 (fun _ => .resp 400 "bad request") 0).attempts = 1
        ∧ (sendFrom 2 (fun _ => .resp 400 "bad request") 0).sleeps = []) := by
  decide

/-- C4, counterexample: the claim orders the transformation as
"BOM removed if present, and surrounding whitespace removed", but the
source strips whitespace first and removes the BOM second, so
whitespace shielded behind a leading BOM survives: on the header
`"\uFEFF x"` the source produces `" x"` while the claim's reading
produces `"x"`. -/
theorem c4_counterexample :
    normalize_headers ["\uFEFF x"] "generic" = [" x"]
    ∧ claimNormalizeHeader "\uFEFF x" = "x"
    ∧ normalize_headers ["\uFEFF x"] "generic" ≠ ["\uFEFF x"].map claimNormalizeHeader := by
  decide

/-- C5: the claim says `load_monitor_data` detects two distinct
original column names that normalize to the same cleaned name and
fails loudly.  The code has no such check: with header
`["a", "a "]` (both normalizing to `"a"`) the load succeeds and the
normalized row silently collapses the two columns into one entry,
the later column's value `"2"` overwriting the earlier `"1"`. -/
theorem c5_duplicate_headers_collapse :
    normalize_headers ["a", "a "] "generic" = ["a", "a"]
    ∧ (load_monitor_data "generic" ["a", "a "] [[("a", "1"), ("a ", "2")]]).toOption
        = some ⟨["a", "a "], ["a", "a"], [("a", "a"), ("a ", "a")], [],
            [⟨[("a", "2")], 0⟩]⟩ := by
  decide

/-- C8, counterexample: under a max-index ceiling of 5 the source
drops `"f_1f_2"` (it compares `int("f_1f_2".replace("f_", "")) = 12`
against the ceiling, not the unparsable suffix `"1f_2"`, which the
claim says is never dropped) and keeps `" f_3"` (the ceiling test
uses the untrimmed lower-cased name, whose leading space defeats the
`f_` prefix test, so the column passes through unconditionally —
while it falls in none of the claim's cases (a)–(c), and the claim
says no qualifying column outside those cases is kept). -/
theorem c8_counterexample :
    extract_feature_columns none (some 5) ["f_1f_2", " f_3"] = [" f_3"]
    ∧ claimExtractMaxIndex 5 ["f_1f_2", " f_3"] = ["f_1f_2"]
    ∧ extract_feature_columns none (some 5) ["f_1f_2", " f_3"]
        ≠ claimExtractMaxIndex 5 ["f_1f_2", " f_3"] := by
  decide

/-- C9, counterexample: the claim says the poller returns the
backend-supplied `dinsight_id`, "falling back to the submitted
identifier when none is supplied".  The code uses Python's falsy
`or`, so a supplied `dinsight_id` of `0` is also replaced by the
submitted identifier: with upload id 7 and a first response carrying
`dinsight_id = 0` and non-empty coordinates, the poller returns 7,
not the supplied 0. -/
theorem c9_counterexample :
    poll_for_processing_completion 7 (fun _ => .resp 200 (some ⟨[1], [2], some 0⟩)) 60
      = ⟨1, 0, some 7⟩
    ∧ (poll_for_processing_completion 7
        (fun _ => .resp 200 (some ⟨[1], [2], some 0⟩)) 60).result ≠ some 0 := by
  decide

/-- Helper: the per-header transformation of `normalize_headers` is
family-independent and equal to strip-then-BOM-removal. -/
lemma normalize_headers_eq (headers : List String) (g : String) :
    normalize_headers headers g = headers.map (fun h => pyRemoveBOM (pyStrip h)) := by
  unfold normalize_headers pyRemoveBOM
  apply List.map_congr_left
  intro a _
  dsimp only
  split_ifs <;> rfl

/-- C4 (amended): each normalized name is the original with
surrounding whitespace removed first and then a single leading
byte-order marker removed (in that order — whitespace uncovered by
the BOM removal is kept); exactly one name per original, in order,
and the dataset family never changes the result. -/
theorem c4_amended (headers : List String) (fam fam' : String) :
    normalize_headers headers fam = headers.map (fun h => pyRemoveBOM (pyStrip h))
    ∧ normalize_headers headers fam = normalize_headers headers fam'
    ∧ (normalize_headers headers fam).length = headers.length := by
  refine ⟨normalize_headers_eq headers fam,
    (normalize_headers_eq headers fam).trans (normalize_headers_eq headers fam').symm, ?_⟩
  rw [normalize_headers_eq headers fam, List.length_map]

/-- C8 (amended): with a max-index ceiling `c` active and no
max-frequency ceiling, the selector returns, in original order,
exactly the feature columns kept by the source's actual rule: a
column whose lower-cased (untrimmed) name starts with `f_` is kept
iff the integer obtained by deleting every occurrence of `f_` parses
and is ≤ `c`, or fails to parse; every other selected feature column
passes through unconditionally. -/
theorem c8_amended (c : ℤ) (headers : List String) :
    extract_feature_columns none (some c) headers
      = headers.filter (fun h => isFeatureHeader h && maxIndexKeep c h) := by
  dsimp only [extract_feature_columns]
  rw [List.filter_filter]
  congr 1
  funext h
  rw [Bool.and_comm]
  rfl

/-- Helper: unrolled characterization of `validateLoop` with an
arbitrary running count. -/
lemma validateLoop_eq (e : Nat) :
    ∀ (row : List (String × String)) (c : Nat),
      validateLoop e row c =
        ((row.all fun kv => !isFeatureKey kv.1 || pyFloatParses kv.2) &&
         ((c + (row.filter fun kv => isFeatureKey kv.1 && pyFloatParses kv.2).length) == e)) := by
  intro row
  induction row with
  | nil => intro c; simp [validateLoop]
  | cons kv rest ih =>
    intro c
    obtain ⟨k, v⟩ := kv
    by_cases hf : isFeatureKey k
    · by_cases hp : pyFloatParses v
      · simp [validateLoop, hf, hp, ih, List.filter_cons, Nat.add_comm, Nat.add_assoc,
          Nat.add_left_comm]
      · simp [validateLoop, hf, hp]
    · simp [validateLoop, hf, ih, List.filter_cons]

/-- C3: `validate_vector_length` is total (hence never raises) and
returns true exactly when every feature-keyed value (key whose
lower-cased, trimmed name starts with `f_` or `freq_`) parses as a
float and the number of such parsed feature values equals the
expected length; in particular the row
`{f_0: 0.1, f_1: "abc", f_2: 0.3}` with expected length 3 is
rejected. -/
theorem c3_validate :
    (∀ (row : List (String × String)) (e : Nat),
      validate_vector_length row e =
        ((row.all fun kv => !isFeatureKey kv.1 || pyFloatParses kv.2) &&
         ((row.filter fun kv => isFeatureKey kv.1 && pyFloatParses kv.2).length == e)))
    ∧ validate_vector_length [("f_0", "0.1"), ("f_1", "abc"), ("f_2", "0.3")] 3 = false := by
  constructor
  · intro row e
    rw [validate_vector_length, validateLoop_eq]
    simp
  · decide

/-- Helper: the transmission loop makes at most `fuel` attempts. -/
lemma sendFuel_attempts_le (retries : Nat) (responses : Nat → HttpAttempt) :
    ∀ fuel a0, (sendFuel retries responses fuel a0).attempts ≤ fuel := by
  intro fuel
  induction fuel with
  | zero => intro a0; simp [sendFuel]
  | succ n ih =>
    intro a0
    simp only [sendFuel]
    repeat' split
    all_goals dsimp only
    all_goals first
      | exact Nat.succ_le_succ (ih (a0 + 1))
      | omega

/-- Helper: while the budget lasts, the loop head makes at least one
further attempt. -/
lemma sendFrom_attempts_pos (retries : Nat) (responses : Nat → HttpAttempt) (a0 : Nat)
    (h : a0 ≤ retries) : 1 ≤ (sendFrom retries responses a0).attempts := by
  rw [sendFrom, (by omega : retries + 1 - a0 = (retries - a0) + 1)]
  simp only [sendFuel]
  rw [if_pos h]
  repeat' split
  all_goals dsimp only
  all_goals omega

/-- Helper: one loop iteration seeing a 5xx response within the
budget performs a backoff sleep of `attempt` seconds and continues
with the next attempt (whether through the explicit transient branch
or through the raise-catching handler, which sleeps the same
duration). -/
lemma sendFrom_5xx_step (retries : Nat) (responses : Nat → HttpAttempt) (a0 s : Nat)
    (body : String) (ha : a0 + 1 ≤ retries) (hr : responses (a0 + 1) = .resp s body)
    (hs : 500 ≤ s) :
    (sendFrom retries responses a0).sleeps
        = (a0 + 1) :: (sendFrom retries responses (a0 + 1)).sleeps
      ∧ (sendFrom retries responses a0).attempts
        = (sendFrom retries responses (a0 + 1)).attempts + 1 := by
  have hfuel : retries + 1 - a0 = (retries + 1 - (a0 + 1)) + 1 := by omega
  have hne200 : s ≠ 200 := by omega
  have hne201 : s ≠ 201 := by omega
  have hne400 : s ≠ 400 := by omega
  have ha0 : a0 ≤ retries := by omega
  by_cases h1 : strContains (strLower body) "baseline matrix empty" <;>
  by_cases h2 : strContains (strLower body) "dimension mismatch" <;>
  simp [sendFrom, hfuel, sendFuel, hr, hne200, hne201, hne400, hs, ha, ha0, h1, h2]

/-- C6: the transmission loop makes at most `1 + retries` attempts;
a 5xx response on attempt `k = a0 + 1` with `k ≤ retries` is followed
by a backoff sleep of `k` seconds and at least one further attempt;
and in the spec's scenario (HTTP 503 twice, then HTTP 200, retry
budget 2) the operation succeeds with backoff delays of 1s and 2s. -/
theorem c6_retry (retries : Nat) (responses : Nat → HttpAttempt) :
    (sendFrom retries responses 0).attempts ≤ 1 + retries
    ∧ (∀ a0 s body, a0 + 1 ≤ retries → responses (a0 + 1) = .resp s body → 500 ≤ s →
        (sendFrom retries responses a0).sleeps
            = (a0 + 1) :: (sendFrom retries responses (a0 + 1)).sleeps
          ∧ (sendFrom retries responses a0).attempts
            = (sendFrom retries responses (a0 + 1)).attempts + 1
          ∧ 1 ≤ (sendFrom retries responses (a0 + 1)).attempts)
    ∧ sendFrom 2 (fun a => if a ≤ 2 then .resp 503 "service unavailable" else .resp 200 "ok") 0
        = ⟨3, [1, 2], 0, .ok⟩ := by
  refine ⟨?_, ?_, by decide⟩
  · have := sendFuel_attempts_le retries responses (retries + 1 - 0) 0
    rw [sendFrom]
    omega
  · intro a0 s body ha hr hs
    obtain ⟨h1, h2⟩ := sendFrom_5xx_step retries responses a0 s body ha hr hs
    exact ⟨h1, h2, sendFrom_attempts_pos retries responses (a0 + 1) ha⟩

/-- Witness for C6 at the spec scenario: applying the backoff clause
at the first 503 attempt. -/
theorem c6_retry_witness :
    (sendFrom 2 (fun a => if a ≤ 2 then .resp 503 "service unavailable"
        else .resp 200 "ok") 0).sleeps
      = 1 :: (sendFrom 2 (fun a => if a ≤ 2 then .resp 503 "service unavailable"
          else .resp 200 "ok") 1).sleeps := by
  have h := (c6_retry 2
    (fun a => if a ≤ 2 then .resp 503 "service unavailable" else .resp 200 "ok")).2.1
    0 503 "service unavailable" (by decide) (by decide) (by decide)
  simpa using h.1

/-- Helper: looking a key up in a table built by tagging each key of
a list with a function of itself. -/
lemma lookup_map_self (l : List String) (f : String → String) (col : String)
    (h : col ∈ l) : (l.map (fun c => (c, f c))).lookup col = some (f col) := by
  induction l with
  | nil => simp at h
  | cons c cs ih =>
    simp only [List.map_cons, List.lookup]
    by_cases hc : col = c
    · subst hc; simp
    · have hbeq : (col == c) = false := by simp [hc]
      rw [hbeq]
      simp at h
      exact ih (h.resolve_left hc)

/-- C7: every cell written for a batch column whose lower-cased name
starts with `f_` or `freq_` is the numeric re-serialization (`fmtG`,
standing for `"%g" % float(val)`) of the resolved source cell when it
parses as a float, and the literal `"0"` when it does not; every
other column's cell is the raw source string, defaulting to the empty
string when the source key is absent. -/
theorem c7_cells (fmtG : String → String) (include_metadata : Bool)
    (orig_to_norm : Option (List (String × String))) (fieldnames : List String)
    (row : List (String × String)) (col : String) (hcol : col ∈ fieldnames) :
    (writeBatchRow fmtG include_metadata orig_to_norm fieldnames row).lookup col =
      some (
        if strStartsWith (strLower col) "f_" || strStartsWith (strLower col) "freq_" then
          if pyFloatParses (dictGet row (batchSourceKey include_metadata orig_to_norm col) "")
          then fmtG (dictGet row (batchSourceKey include_metadata orig_to_norm col) "")
          else "0"
        else dictGet row (batchSourceKey include_metadata orig_to_norm col) "") := by
  rw [writeBatchRow, lookup_map_self _ _ _ hcol]
  rfl

/-- Witness for C7: a parsing feature cell is re-serialized through
the numeric formatter. -/
theorem c7_cells_witness :
    (writeBatchRow (fun s => s ++ "!") false none ["f_0", "name"]
      [("f_0", "1.5"), ("name", "abc")]).lookup "f_0" = some "1.5!" := by
  have h := c7_cells (fun s => s ++ "!") false none ["f_0", "name"]
    [("f_0", "1.5"), ("name", "abc")] "f_0" (by decide)
  exact h.trans (by decide)

/-- C10: with no baseline set the status query returns exactly the
`not_started` dictionary and performs no backend call; a backend call
is only made when a baseline identifier is set. -/
theorem c10_status (st : SessionState) (backend : CoordResp) :
    (st.baseline_id = none →
      get_streaming_status st backend = ([("status", JVal.s "not_started")], false))
    ∧ ((get_streaming_status st backend).2 = true → ∃ b, st.baseline_id = some b) := by
  constructor
  · intro h
    simp [get_streaming_status, h, intOptTruthy]
  · intro h
    match hb : st.baseline_id with
    | some b => exact ⟨b, rfl⟩
    | none => simp [get_streaming_status, hb, intOptTruthy] at h

/-- Witness for C10 at a concrete unset-baseline state. -/
theorem c10_status_witness :
    get_streaming_status ⟨none, 5, true, none, 10⟩ .err
      = ([("status", JVal.s "not_started")], false) :=
  (c10_status ⟨none, 5, true, none, 10⟩ .err).1 rfl

/-- Helper: length of a positive-step Python range. -/
lemma pyRange_length (step : Nat) (hs : 0 < step) :
    ∀ n start stop, stop - start ≤ n →
      (pyRange start stop step).length = (stop - start + step - 1) / step := by
  intro n
  induction n with
  | zero =>
    intro start stop hle
    rw [pyRange, dif_neg (by omega : ¬(start < stop ∧ 0 < step))]
    rw [(by omega : stop - start = 0)]
    exact (Nat.div_eq_of_lt (by omega)).symm
  | succ n ih =>
    intro start stop hle
    by_cases h : start < stop
    · rw [pyRange, dif_pos ⟨h, hs⟩, List.length_cons, ih (start + step) stop (by omega)]
      have harith : stop - start + step - 1 = (stop - start - 1) + step := by omega
      rw [harith, Nat.add_div_right _ hs]
      have hdiv : (stop - (start + step) + step - 1) / step = (stop - start - 1) / step := by
        rcases le_or_lt step (stop - start) with hc | hc
        · congr 1
          omega
        · rw [(by omega : stop - (start + step) + step - 1 = step - 1),
            Nat.div_eq_of_lt (by omega), Nat.div_eq_of_lt (by omega)]
      omega
    · rw [pyRange, dif_neg (by omega)]
      rw [(by omega : stop - start = 0)]
      exact (Nat.div_eq_of_lt (by omega)).symm

/-- Helper: the k-th element of a positive-step Python range. -/
lemma pyRange_getElem (step : Nat) (hs : 0 < step) :
    ∀ n start stop, stop - start ≤ n → ∀ k,
      (pyRange start stop step)[k]? =
        if start + k * step < stop then some (start + k * step) else none := by
  intro n
  induction n with
  | zero =>
    intro start stop hle k
    rw [pyRange, dif_neg (by omega : ¬(start < stop ∧ 0 < step)), if_neg (by omega)]
    simp
  | succ n ih =>
    intro start stop hle k
    by_cases h : start < stop
    · rw [pyRange, dif_pos ⟨h, hs⟩]
      cases k with
      | zero => simp [h]
      | succ k' =>
        rw [List.getElem?_cons_succ, ih (start + step) stop (by omega) k']
        have harith : start + step + k' * step = start + (k' + 1) * step := by
          rw [Nat.succ_mul]
          omega
        rw [harith]
    · rw [pyRange, dif_neg (by omega), if_neg (by omega)]
      simp

/-- Helper: concatenating the batch slices starting at `start`
reconstructs the suffix of the data from `start`. -/
lemma streamBatches_flatten {α : Type} (data : List α) (step : Nat) (hs : 0 < step) :
    ∀ n start, data.length - start ≤ n →
      ((pyRange start data.length step).map (fun i => (data.drop i).take step)).flatten
        = data.drop start := by
  intro n
  induction n with
  | zero =>
    intro start hle
    rw [pyRange, dif_neg (by omega : ¬(start < data.length ∧ 0 < step))]
    simp [List.drop_eq_nil_of_le (by omega : data.length ≤ start)]
  | succ n ih =>
    intro start hle
    by_cases h : start < data.length
    · rw [pyRange, dif_pos ⟨h, hs⟩, List.map_cons, List.flatten_cons,
        ih (start + step) (by omega)]
      rw [(List.drop_drop step start data).symm, List.take_append_drop]
    · rw [pyRange, dif_neg (by omega)]
      simp [List.drop_eq_nil_of_le (by omega : data.length ≤ start)]

/-- C2: for batch size `B ≥ 1` the batching loop yields exactly
`⌈N/B⌉` batches; batch `k` is the contiguous slice covering source
indices `[k·B, min((k+1)·B, N))`; and their concatenation, in order,
is the whole row sequence (so batches are non-overlapping, in
increasing index order, and cover every row exactly once). -/
theorem c2_batching {α : Type} (data : List α) (B : Nat) (hB : 1 ≤ B) :
    (streamBatches data B).length = (data.length + B - 1) / B
    ∧ (∀ k, k < (streamBatches data B).length →
        (streamBatches data B)[k]? =
          some (listSlice (k * B) (min ((k + 1) * B) data.length) data))
    ∧ (streamBatches data B).flatten = data := by
  refine ⟨?_, ?_, ?_⟩
  · rw [streamBatches, List.length_map,
      pyRange_length B hB data.length 0 data.length (by omega)]
    simp
  · intro k hk
    rw [streamBatches, List.length_map] at hk
    have hcond : 0 + k * B < data.length := by
      by_contra hc
      have hkn : (pyRange 0 data.length B)[k]? = none := by
        rw [pyRange_getElem B hB data.length 0 data.length (by omega) k, if_neg hc]
      have hlen_le := List.getElem?_eq_none_iff.mp hkn
      omega
    rw [streamBatches, List.getElem?_map,
      pyRange_getElem B hB data.length 0 data.length (by omega) k, if_pos hcond]
    rw [Option.map_some']
    congr 1
    rw [Nat.zero_add, listSlice, List.take_eq_take, List.length_drop, Nat.succ_mul]
    omega
  · have := streamBatches_flatten data B hB data.length 0 (by omega)
    simpa [streamBatches] using this

/-- Witness for C2 at the spec scenario: 10 rows, batch size 3. -/
theorem c2_batching_witness :
    (1 ≤ 3)
    ∧ ((streamBatches (List.range 10) 3).length = (10 + 3 - 1) / 3
        ∧ (∀ k, k < (streamBatches (List.range 10) 3).length →
            (streamBatches (List.range 10) 3)[k]? =
              some (listSlice (k * 3) (min ((k + 1) * 3) (List.range 10).length)
                (List.range 10)))
        ∧ (streamBatches (List.range 10) 3).flatten = List.range 10) := by
  refine ⟨by decide, ?_⟩
  have h := c2_batching (List.range 10) 3 (by decide)
  simpa using h

/-- Helper: one unrolling of the polling loop, phrased through the
per-attempt success condition. -/
lemma pollLoop_step (uid : ℤ) (resp : Nat → PollAttempt) (remaining attempt : Nat) :
    pollLoop uid resp (remaining + 1) attempt =
      match pollHit (resp (attempt + 1)) with
      | some d => ⟨1, 0, some (pyOrInt d.dinsight_id uid)⟩
      | none =>
        let t := pollLoop uid resp remaining (attempt + 1)
        ⟨t.attempts + 1, t.sleeps + 1, t.result⟩ := by
  cases hr : resp (attempt + 1) with
  | err => simp [pollLoop, pollHit, hr]
  | resp status data =>
    cases data with
    | none => simp [pollLoop, pollHit, hr]
    | some d =>
      by_cases hs : status = 200
      · subst hs
        by_cases hxy : d.dinsight_x ≠ [] ∧ d.dinsight_y ≠ []
        · simp [pollLoop, pollHit, hr, hxy]
        · simp [pollLoop, pollHit, hr, hxy]
      · simp [pollLoop, pollHit, hr, hs]

/-- Helper: the polling loop makes at most `remaining` attempts. -/
lemma pollLoop_attempts_le (uid : ℤ) (resp : Nat → PollAttempt) :
    ∀ remaining attempt, (pollLoop uid resp remaining attempt).attempts ≤ remaining := by
  intro remaining
  induction remaining with
  | zero => intro attempt; simp [pollLoop]
  | succ n ih =>
    intro attempt
    rw [pollLoop_step]
    cases pollHit (resp (attempt + 1)) with
    | some d => simp
    | none => simpa using Nat.succ_le_succ (ih (attempt + 1))

/-- Helper: with no successful attempt the loop exhausts every
attempt, sleeps after each, and ends in the timeout result. -/
lemma pollLoop_timeout (uid : ℤ) (resp : Nat → PollAttempt) :
    ∀ remaining attempt, (∀ k, k < remaining → pollHit (resp (attempt + k + 1)) = none) →
      pollLoop uid resp remaining attempt = ⟨remaining, remaining, none⟩ := by
  intro remaining
  induction remaining with
  | zero => intro attempt _; rfl
  | succ n ih =>
    intro attempt hmiss
    rw [pollLoop_step]
    have h0 : pollHit (resp (attempt + 1)) = none := by
      have := hmiss 0 (Nat.succ_pos n)
      simpa using this
    rw [h0]
    have := ih (attempt + 1) (fun k hk => by
      have := hmiss (k + 1) (by omega)
      have harith : attempt + (k + 1) + 1 = attempt + 1 + k + 1 := by omega
      rwa [harith] at this)
    simp [this]

/-- Helper: the loop returns at the first successful attempt, with
one sleep per preceding failed attempt. -/
lemma pollLoop_first_hit (uid : ℤ) (resp : Nat → PollAttempt) :
    ∀ remaining attempt k d, k < remaining →
      (∀ j, j < k → pollHit (resp (attempt + j + 1)) = none) →
      pollHit (resp (attempt + k + 1)) = some d →
      pollLoop uid resp remaining attempt = ⟨k + 1, k, some (pyOrInt d.dinsight_id uid)⟩ := by
  intro remaining
  induction remaining with
  | zero => intro attempt k d hk; omega
  | succ n ih =>
    intro attempt k d hk hmiss hhit
    rw [pollLoop_step]
    cases k with
    | zero =>
      simp only [Nat.add_zero] at hhit
      rw [hhit]
    | succ k' =>
      have h0 : pollHit (resp (attempt + 1)) = none := by
        have := hmiss 0 (Nat.succ_pos k')
        simpa using this
      rw [h0]
      have := ih (attempt + 1) k' d (by omega)
        (fun j hj => by
          have := hmiss (j + 1) (by omega)
          have harith : attempt + (j + 1) + 1 = attempt + 1 + j + 1 := by omega
          rwa [harith] at this)
        (by
          have harith : attempt + (k' + 1) + 1 = attempt + 1 + k' + 1 := by omega
          rwa [harith] at hhit)
      simp [this]

/-- C9 (amended): the poller makes at most `max_attempts` attempts
(60 by default), swallowing per-attempt failures; if no attempt sees
a 200 response with both coordinate arrays non-empty it runs the full
loop — sleeping 2 seconds after every attempt — and only then fails
with the timeout; on the first successful attempt it returns the
backend-supplied `dinsight_id`, falling back to the submitted
identifier when that field is absent or falsy (`0`). -/
theorem c9_amended (upload_id : ℤ) (responses : Nat → PollAttempt) (max_attempts : Nat) :
    (poll_for_processing_completion upload_id responses max_attempts).attempts ≤ max_attempts
    ∧ ((∀ k, k < max_attempts → pollHit (responses (k + 1)) = none) →
        poll_for_processing_completion upload_id responses max_attempts
          = ⟨max_attempts, max_attempts, none⟩)
    ∧ (∀ k d, k < max_attempts → (∀ j, j < k → pollHit (responses (j + 1)) = none) →
        pollHit (responses (k + 1)) = some d →
        poll_for_processing_completion upload_id responses max_attempts
          = ⟨k + 1, k, some (pyOrInt d.dinsight_id upload_id)⟩) := by
  refine ⟨pollLoop_attempts_le upload_id responses max_attempts 0, ?_, ?_⟩
  · intro hmiss
    exact pollLoop_timeout upload_id responses max_attempts 0 (fun k hk => by
      simpa using hmiss k hk)
  · intro k d hk hmiss hhit
    exact pollLoop_first_hit upload_id responses max_attempts 0 k d hk
      (fun j hj => by simpa using hmiss j hj) (by simpa using hhit)

/-- Witness for C9 at the spec scenario: five polls with empty
coordinate arrays, then populated arrays on the sixth. -/
theorem c9_amended_witness :
    poll_for_processing_completion 7
        (fun k => if k < 6 then .resp 200 (some ⟨[], [], none⟩)
                  else .resp 200 (some ⟨[3], [4], some 42⟩)) 60
      = ⟨6, 5, some 42⟩ := by
  have h := (c9_amended 7
    (fun k => if k < 6 then .resp 200 (some ⟨[], [], none⟩)
              else .resp 200 (some ⟨[3], [4], some 42⟩)) 60).2.2 5 ⟨[3], [4], some 42⟩
    (by decide) (by decide) (by decide)
  simpa using h

end StreamingSim
